import Mathlib

/-!
Shallow embedding of the Yeelight tray controller (`yeelight_tray.pyw`).

The embedded parts are, in order:
* `YeelightController` — the TCP command client (fields `ip`, `port`, `cmd_id`
  plus a serialization lock; the lock makes every `send` call atomic, so the
  embedding models a run as a *sequence* of `send` calls).
* `MusicSyncManager` — the helper-process supervisor (`start` / `stop` /
  `toggle` / `is_running`).
* `SysTrayIcon` — the menu id assignment (`_add_ids_to_menu_options`), the
  dynamic menu rendering (`_get_dynamic_menu`), the dispatch (`command`) and
  the shutdown handler (`destroy`).

Machine-facing effects (socket writes, process signals, dialog boxes, icon
removal, thread spawns) are reified as an `Effect` trace; the network and the
child process are nondeterministic and enter the model as explicit outcome
parameters (`NetOutcome`, `StopBehavior`, `StartBehavior`).
-/

/-- Default bulb address: `load_config` fallback when `config.ini` is absent. -/
def LIGHT_IP : String := "192.168.1.100"

/-- Default bulb port: `load_config` fallback when `config.ini` is absent. -/
def PORT : Nat := 55443

/-- State of `YeelightController` (`__init__`): target address and the
command-id counter, which starts at 1.  The `threading.Lock` serializes the
body of `send`; it is represented by treating each `send` as one atomic step
of a sequential trace (`runSends`). -/
structure YeelightController where
  ip : String
  port : Nat
  cmd_id : Nat
deriving DecidableEq, Repr

/-- Outcome of the socket operations of a single `send` call: every operation
succeeds, or the call raises while creating/connecting the socket, while
writing, or while reading the reply (timeout or I/O error).  The code
collapses all of these into `return False` via `except Exception`. -/
inductive NetOutcome where
  | ok
  | failConnect
  | failSend
  | failRecv
deriving DecidableEq, Repr

/-- One command envelope, as composed by `send` from the current `cmd_id`,
the method name and the (already rendered) parameter list. -/
structure Envelope where
  wid : Nat
  method : String
  params : String
deriving DecidableEq, Repr

/-- Rendering of an envelope: the f-string
`'{"id":<cmd_id>,"method":"<method>","params":<params>}'` of `send`. -/
def renderEnvelope (e : Envelope) : String :=
  "\x7b\"id\":" ++ toString e.wid ++ ",\"method\":\"" ++ e.method ++
    "\",\"params\":" ++ e.params ++ "\x7d"

/-- The bytes written to the socket: the envelope followed by `"\r\n"`. -/
def renderWire (e : Envelope) : String :=
  renderEnvelope e ++ "\r\n"

/-- Result of one `send` call: the successor client state, the boolean the
call returns, the envelope it composed, and the envelope that actually
reached the wire (`Option.none` when the call failed before the write). -/
structure SendResult where
  client : YeelightController
  ok : Bool
  cmd : Envelope
  wire : Option Envelope
deriving DecidableEq, Repr

namespace YeelightController

/-- Constructor `YeelightController(ip, port)`: `cmd_id` starts at 1. -/
def init (ip : String) (port : Nat) : YeelightController :=
  ⟨ip, port, 1⟩

/-- Method `send`: under the lock, compose the envelope from the current
`cmd_id`, increment `cmd_id`, then connect, write `cmd + "\r\n"`, read and
discard up to 1024 bytes, and return `True`; any exception yields `False`.
The increment precedes all socket operations, so it happens on every call.
The envelope reaches the wire exactly when the connect and the write both
succeed (`ok` or `failRecv`). -/
def send (c : YeelightController) (method params : String) (o : NetOutcome) :
    SendResult :=
  let cmd : Envelope := ⟨c.cmd_id, method, params⟩
  let c2 : YeelightController := ⟨c.ip, c.port, c.cmd_id + 1⟩
  match o with
  | NetOutcome.ok => ⟨c2, true, cmd, some cmd⟩
  | NetOutcome.failConnect => ⟨c2, false, cmd, Option.none⟩
  | NetOutcome.failSend => ⟨c2, false, cmd, Option.none⟩
  | NetOutcome.failRecv => ⟨c2, false, cmd, some cmd⟩

/-- Method `on`. -/
def turn_on (c : YeelightController) (o : NetOutcome) : SendResult :=
  send c "set_power" "[\"on\",\"smooth\",500]" o

/-- Method `off`. -/
def turn_off (c : YeelightController) (o : NetOutcome) : SendResult :=
  send c "set_power" "[\"off\",\"smooth\",500]" o

/-- Method `toggle` (uses the `params="[]"` default of `send`). -/
def toggle (c : YeelightController) (o : NetOutcome) : SendResult :=
  send c "toggle" "[]" o

/-- Method `brightness`. -/
def brightness (c : YeelightController) (value : Nat) (o : NetOutcome) :
    SendResult :=
  send c "set_bright" ( "[" ++ toString value ++ ",\"smooth\",200]") o

/-- Method `color_temp`. -/
def color_temp (c : YeelightController) (value : Nat) (o : NetOutcome) :
    SendResult :=
  send c "set_ct_abx" ( "[" ++ toString value ++ ",\"smooth\",500]") o

/-- Method `disable_music_mode`. -/
def disable_music_mode (c : YeelightController) (o : NetOutcome) : SendResult :=
  send c "set_music" "[0]" o

end YeelightController

/-- The module-level singleton `light = YeelightController(LIGHT_IP, PORT)`. -/
def light : YeelightController :=
  YeelightController.init LIGHT_IP PORT

/-- A sequential trace of `send` calls (the serialization the lock enforces):
each element gives the method, the parameter string and the network outcome of
one call.  Returns the final client state and the envelopes that reached the
wire, in wire order. -/
def runSends (c : YeelightController) :
    List (String × String × NetOutcome) → YeelightController × List Envelope
  | [] => (c, [])
  | (m, p, o) :: rest =>
    let r := YeelightController.send c m p o
    let (c2, ws) := runSends r.client rest
    (c2, r.wire.toList ++ ws)

/-- Whether a call with this outcome puts its envelope on the wire: the
connect and the write succeeded. -/
def wireOn : NetOutcome → Bool
  | NetOutcome.ok => true
  | NetOutcome.failRecv => true
  | NetOutcome.failConnect => false
  | NetOutcome.failSend => false

/-- The ids that reach the wire when the counter starts at `n`: call `k`
consumes id `n + k` and contributes it exactly when its outcome is `wireOn`. -/
def wireIdsFrom : Nat → List (String × String × NetOutcome) → List Nat
  | _, [] => []
  | n, (_, _, o) :: rest =>
    (if wireOn o then [n] else []) ++ wireIdsFrom (n + 1) rest

/-- An opaque child-process handle (`subprocess.Popen` result); `alive` is
what `poll() is None` reports at the moment the handle is inspected. -/
structure Proc where
  alive : Bool
deriving DecidableEq, Repr

/-- State of `MusicSyncManager` (`__init__`): `self.process = None`,
`self.running = False`. -/
structure MusicSyncManager where
  process : Option Proc
  running : Bool
deriving DecidableEq, Repr

/-- Behavior of the process-termination primitives during one `stop` call:
whether `terminate()` raises, whether `wait(timeout=3)` raises (timeout
expired or other error), and whether the fallback `kill()` raises. -/
structure StopBehavior where
  terminateRaises : Bool
  waitRaises : Bool
  killRaises : Bool
deriving DecidableEq, Repr

/-- Environment of one `start` call: whether `yeelight_music_sync.py` exists
next to the script, and whether `subprocess.Popen` succeeds. -/
structure StartBehavior where
  scriptExists : Bool
  spawnOk : Bool
deriving DecidableEq, Repr

/-- The module-level menu action functions, used as handler references in the
menu tuple and in the action registry. -/
inductive Handler where
  | on_toggle | on_on | on_off
  | bright_100 | bright_75 | bright_50 | bright_25 | bright_10
  | temp_warm | temp_neutral | temp_cool | temp_day
  | on_music_sync
deriving DecidableEq, Repr

/-- Machine-facing effects, in the order the code performs them: a
`DeviceClient` invocation (`light.send(method, params)`), process signals,
a modal error dialog, tray-icon removal, `PostQuitMessage`, and spawning a
daemon worker thread for a handler. -/
inductive Effect where
  | deviceCall (method params : String)
  | procTerminate
  | procKill
  | procLaunch
  | errorDialog (text : String)
  | removeIcon
  | postQuit
  | spawnThread (h : Handler)
deriving DecidableEq, Repr

namespace MusicSyncManager

/-- Python truthiness test `self.running and self.process and
self.process.poll() is None` splits into the flag and this liveness part
(`self.process and self.process.poll() is None`). -/
def hasLive (s : MusicSyncManager) : Bool :=
  match s.process with
  | some p => p.alive
  | Option.none => false

/-- Method `start`: return immediately when already running with a live
handle; error dialog and abort when the helper script is missing; otherwise
`Popen` a hidden child (on success `self.process` is the new live handle and
`self.running = True`; on an exception an error dialog is shown and no state
changes). -/
def start (s : MusicSyncManager) (b : StartBehavior) :
    MusicSyncManager × List Effect :=
  if s.running && hasLive s then (s, [])
  else if !b.scriptExists then
    (s, [Effect.errorDialog
      "Music sync script not found!\n\nMake sure yeelight_music_sync.py is in the same folder."])
  else if b.spawnOk then
    (⟨some ⟨true⟩, true⟩, [Effect.procLaunch])
  else
    (s, [Effect.errorDialog "Failed to start music sync:"])

/-- Process-termination effects of `stop`: nothing when `self.process` is
`None`; otherwise `terminate()` then `wait(timeout=3)`, and on any exception
from either a best-effort `kill()` whose own exception is swallowed. -/
def termFx (s : MusicSyncManager) (b : StopBehavior) : List Effect :=
  match s.process with
  | Option.none => []
  | some _ =>
    if b.terminateRaises then
      (if b.killRaises then [] else [Effect.procKill])
    else
      Effect.procTerminate ::
        (if b.waitRaises then (if b.killRaises then [] else [Effect.procKill])
         else [])

/-- Method `stop`: run the termination block, unconditionally reset
`self.process = None` and `self.running = False`, then call
`light.disable_music_mode()` (one `send("set_music", "[0]")`). -/
def stop (s : MusicSyncManager) (b : StopBehavior) :
    MusicSyncManager × List Effect :=
  (⟨Option.none, false⟩, termFx s b ++ [Effect.deviceCall "set_music" "[0]"])

/-- Method `is_running`: report the liveness poll; when it is negative also
set `self.running = False` (note the code leaves `self.process` untouched). -/
def is_running (s : MusicSyncManager) : Bool × MusicSyncManager :=
  if hasLive s then (true, s)
  else (false, ⟨s.process, false⟩)

/-- Method `toggle`: `stop()` when believed running with a live handle,
else `start()`. -/
def toggleSync (s : MusicSyncManager) (sb : StopBehavior) (tb : StartBehavior) :
    MusicSyncManager × List Effect :=
  if s.running && hasLive s then stop s sb else start s tb

end MusicSyncManager

mutual
/-- Declared menu option: a tuple `(text, icon, action)` whose action slot is
a callable (`leaf`), the `'QUIT'` sentinel (`quitOpt`), a nested tuple
(`sub`), or `None` (`sepOpt`).  Icons are always `None` in the source; the
slot is kept as `Option Nat`. -/
inductive MOpt where
  | leaf (text : String) (icon : Option Nat) (h : Handler)
  | quitOpt (text : String) (icon : Option Nat)
  | sub (text : String) (icon : Option Nat) (kids : MOpts)
  | sepOpt (text : String) (icon : Option Nat)
/-- A (nested) tuple of declared menu options. -/
inductive MOpts where
  | nil
  | cons (o : MOpt) (rest : MOpts)
end

mutual
/-- Id-assigned menu option, as stored in `self.menu_options`: the action
slot now holds the assigned integer id (`act`), a nested list (`sub`), or
`None` (`sepR`). -/
inductive ROpt where
  | act (text : String) (icon : Option Nat) (aid : Nat)
  | sub (text : String) (icon : Option Nat) (kids : ROpts)
  | sepR (text : String) (icon : Option Nat)
/-- A list of id-assigned menu options. -/
inductive ROpts where
  | nil
  | cons (o : ROpt) (rest : ROpts)
end

/-- A value stored in `self.menu_actions_by_id`: the callable, or the
`'QUIT'` sentinel string. -/
inductive RegAction where
  | handler (h : Handler)
  | quitAct
deriving DecidableEq, Repr

mutual
/-- The per-option step of `SysTrayIcon._add_ids_to_menu_options`: a callable
or the QUIT sentinel gets the next id and a registry entry, a nested tuple is
recursed into depth-first, `None` stays a separator. -/
def addIdsOne : Nat → MOpt → Nat × ROpt × List (Nat × RegAction)
  | n, MOpt.leaf t i h => (n + 1, ROpt.act t i n, [(n, RegAction.handler h)])
  | n, MOpt.quitOpt t i => (n + 1, ROpt.act t i n, [(n, RegAction.quitAct)])
  | n, MOpt.sub t i kids =>
    let (n1, rk, gk) := add_ids_to_menu_options n kids
    (n1, ROpt.sub t i rk, gk)
  | n, MOpt.sepOpt t i => (n, ROpt.sepR t i, [])
/-- Method `SysTrayIcon._add_ids_to_menu_options`, with the two instance
variables it threads (`self._next_action_id`, `self.menu_actions_by_id`)
made explicit.  The registry is kept as a list in insertion order (the
Python `set` holds exactly these pairs; all assigned ids are distinct). -/
def add_ids_to_menu_options :
    Nat → MOpts → Nat × ROpts × List (Nat × RegAction)
  | n, MOpts.nil => (n, ROpts.nil, [])
  | n, MOpts.cons o rest =>
    let (n1, r1, g1) := addIdsOne n o
    let (n2, r2, g2) := add_ids_to_menu_options n1 rest
    (n2, ROpts.cons r1 r2, g1 ++ g2)
end

/-- The module-level `menu_options` tuple (before `__init__` appends Quit). -/
def menu_options : MOpts :=
  MOpts.cons (MOpt.leaf "Toggle" Option.none Handler.on_toggle) <|
  MOpts.cons (MOpt.sepOpt "" Option.none) <|
  MOpts.cons (MOpt.leaf "Turn ON" Option.none Handler.on_on) <|
  MOpts.cons (MOpt.leaf "Turn OFF" Option.none Handler.on_off) <|
  MOpts.cons (MOpt.sepOpt "" Option.none) <|
  MOpts.cons (MOpt.sub "Brightness" Option.none <|
    MOpts.cons (MOpt.leaf "100%" Option.none Handler.bright_100) <|
    MOpts.cons (MOpt.leaf "75%" Option.none Handler.bright_75) <|
    MOpts.cons (MOpt.leaf "50%" Option.none Handler.bright_50) <|
    MOpts.cons (MOpt.leaf "25%" Option.none Handler.bright_25) <|
    MOpts.cons (MOpt.leaf "10%" Option.none Handler.bright_10) MOpts.nil) <|
  MOpts.cons (MOpt.sub "Color Temp" Option.none <|
    MOpts.cons (MOpt.leaf "Warm (2700K)" Option.none Handler.temp_warm) <|
    MOpts.cons (MOpt.leaf "Neutral (4000K)" Option.none Handler.temp_neutral) <|
    MOpts.cons (MOpt.leaf "Cool (5500K)" Option.none Handler.temp_cool) <|
    MOpts.cons (MOpt.leaf "Daylight (6500K)" Option.none Handler.temp_day)
      MOpts.nil) <|
  MOpts.cons (MOpt.sepOpt "" Option.none) <|
  MOpts.cons (MOpt.leaf "Start Music Sync" Option.none Handler.on_music_sync)
    MOpts.nil

/-- Append on declared option lists (for `menu_options + (('Quit', ...),)`). -/
def MOpts.append : MOpts → MOpts → MOpts
  | MOpts.nil, l => l
  | MOpts.cons o rest, l => MOpts.cons o (MOpts.append rest l)

namespace SysTrayIcon

/-- Class attribute `FIRST_ID = 1023`. -/
def FIRST_ID : Nat := 1023

/-- The option list after `__init__` does
`menu_options + (('Quit', None, self.QUIT),)`. -/
def full_menu_options : MOpts :=
  MOpts.append menu_options
    (MOpts.cons (MOpt.quitOpt "Quit" Option.none) MOpts.nil)

/-- Instance variable `self.menu_options`: the id-assigned tree. -/
def built_menu : ROpts :=
  (add_ids_to_menu_options FIRST_ID full_menu_options).2.1

/-- Instance variable `self.menu_actions_by_id`. -/
def menu_actions_by_id : List (Nat × RegAction) :=
  (add_ids_to_menu_options FIRST_ID full_menu_options).2.2

end SysTrayIcon

/-- Substring test on character lists (Python's `pat in text`): some suffix
of the haystack starts with the pattern. -/
def hasSub : List Char → List Char → Bool
  | [], pat => pat.isEmpty
  | c :: t, pat => pat.isPrefixOf (c :: t) || hasSub t pat

/-- Python's `pat in str(text)` on strings. -/
def str_contains (text pat : String) : Bool :=
  hasSub text.data pat.data

namespace ROpt

/-- First tuple slot of an id-assigned option. -/
def textOf : ROpt → String
  | ROpt.act t _ _ => t
  | ROpt.sub t _ _ => t
  | ROpt.sepR t _ => t

/-- Second tuple slot of an id-assigned option. -/
def iconOf : ROpt → Option Nat
  | ROpt.act _ i _ => i
  | ROpt.sub _ i _ => i
  | ROpt.sepR _ i => i

/-- Python's `isinstance(action, list)` on the third tuple slot. -/
def isSubList : ROpt → Bool
  | ROpt.sub _ _ _ => true
  | _ => false

end ROpt

namespace SysTrayIcon

/-- The inner loop of `_get_dynamic_menu`: scan `self.menu_actions_by_id`
for the pair whose stored action is the `on_music_sync` function. -/
def music_sync_entry : Option (Nat × RegAction) :=
  menu_actions_by_id.find?
    (fun pr => pr.2 == RegAction.handler Handler.on_music_sync)

/-- The rebuild loop of `_get_dynamic_menu` over `self.menu_options`: the
entry whose text contains `"Music Sync"` and whose action is not a submenu
list is replaced by `(music_text, icon, aid)` with `aid` from the registry
scan (when the scan finds nothing, nothing is appended for that entry — the
append sits inside the scan loop); every other entry is copied as is. -/
def rebuild_dynamic (music_text : String) : ROpts → ROpts
  | ROpts.nil => ROpts.nil
  | ROpts.cons o rest =>
    if str_contains o.textOf "Music Sync" && !o.isSubList then
      match music_sync_entry with
      | some pr =>
        ROpts.cons (ROpt.act music_text o.iconOf pr.1)
          (rebuild_dynamic music_text rest)
      | Option.none => rebuild_dynamic music_text rest
    else ROpts.cons o (rebuild_dynamic music_text rest)

/-- Method `_get_dynamic_menu`: poll `music_sync.is_running()` (which may
self-heal the supervisor state), pick the label from the poll, and rebuild
the top-level option list. -/
def get_dynamic_menu (s : MusicSyncManager) : ROpts × MusicSyncManager :=
  let polled := MusicSyncManager.is_running s
  let music_text := if polled.1 then "Stop Music Sync" else "Start Music Sync"
  (rebuild_dynamic music_text built_menu, polled.2)

/-- Handler `destroy` (WM_DESTROY, reached from the Quit dispatch through
`DestroyWindow`): `music_sync.stop()` first, then
`Shell_NotifyIcon(NIM_DELETE, ...)` (icon removal), then
`PostQuitMessage(0)`, in that textual order. -/
def destroy (s : MusicSyncManager) (b : StopBehavior) :
    MusicSyncManager × List Effect :=
  let r := MusicSyncManager.stop s b
  (r.1, r.2 ++ [Effect.removeIcon, Effect.postQuit])

/-- Handler `command` (WM_COMMAND): look the selected id up in
`self.menu_actions_by_id` (ids are unique, so the set scan is
deterministic); the QUIT sentinel calls `DestroyWindow`, which makes the OS
deliver WM_DESTROY and run `destroy`; a callable is started on a fresh
daemon thread; an id with no registry entry leaves `action = None`, and both
the `== QUIT` test and the `elif action:` truthiness test fail, so the
handler silently does nothing. -/
def command (action_id : Nat) (s : MusicSyncManager) (b : StopBehavior) :
    MusicSyncManager × List Effect :=
  match menu_actions_by_id.find? (fun pr => pr.1 == action_id) with
  | some (_, RegAction.quitAct) => destroy s b
  | some (_, RegAction.handler h) => (s, [Effect.spawnThread h])
  | Option.none => (s, [])

end SysTrayIcon

mutual
/-- Leaf ids of one id-assigned option, depth-first (`act` nodes only). -/
def leafIdsOne : ROpt → List Nat
  | ROpt.act _ _ n => [n]
  | ROpt.sub _ _ kids => leafIdsL kids
  | ROpt.sepR _ _ => []
/-- Leaf ids of an id-assigned option list, depth-first. -/
def leafIdsL : ROpts → List Nat
  | ROpts.nil => []
  | ROpts.cons o rest => leafIdsOne o ++ leafIdsL rest
end

/-- Effect classifier: is this effect a `DeviceClient` invocation at all? -/
def Effect.isDeviceCall : Effect → Bool
  | Effect.deviceCall _ _ => true
  | _ => false

/-! Helper lemmas about `send` traces. -/

theorem runSends_map_wid (calls : List (String × String × NetOutcome)) :
    ∀ c : YeelightController,
      ((runSends c calls).2).map Envelope.wid = wireIdsFrom c.cmd_id calls := by
  induction calls with
  | nil => intro c; rfl
  | cons hd tl ih =>
    intro c
    obtain ⟨m, p, o⟩ := hd
    cases o <;>
      simp [runSends, YeelightController.send, wireIdsFrom, wireOn, ih]

theorem wireIdsFrom_lb (calls : List (String × String × NetOutcome)) :
    ∀ n x, x ∈ wireIdsFrom n calls → n ≤ x := by
  induction calls with
  | nil => intro n x hx; simp [wireIdsFrom] at hx
  | cons hd tl ih =>
    intro n x hx
    obtain ⟨m, p, o⟩ := hd
    simp only [wireIdsFrom, List.mem_append] at hx
    rcases hx with hx | hx
    · rcases wireOn o <;> simp_all
    · exact Nat.le_of_succ_le (ih (n + 1) x hx)

theorem wireIdsFrom_sorted (calls : List (String × String × NetOutcome)) :
    ∀ n, List.Pairwise (· < ·) (wireIdsFrom n calls) := by
  induction calls with
  | nil => intro n; simp [wireIdsFrom]
  | cons hd tl ih =>
    intro n
    obtain ⟨m, p, o⟩ := hd
    cases h : wireOn o
    · simpa [wireIdsFrom, h] using ih (n + 1)
    · simp only [wireIdsFrom, h, if_true, List.singleton_append,
        List.pairwise_cons]
      exact ⟨fun x hx => Nat.lt_of_succ_le (wireIdsFrom_lb tl (n + 1) x hx),
        ih (n + 1)⟩

theorem wireIdsFrom_all_ok (calls : List (String × String × NetOutcome)) :
    ∀ n, (∀ x ∈ calls, wireOn x.2.2 = true) →
      wireIdsFrom n calls = List.range' n calls.length := by
  induction calls with
  | nil => intro n _; rfl
  | cons hd tl ih =>
    intro n h
    obtain ⟨m, p, o⟩ := hd
    have ho : wireOn o = true := h (m, p, o) (List.mem_cons_self _ _)
    have htl : ∀ x ∈ tl, wireOn x.2.2 = true :=
      fun x hx => h x (List.mem_cons_of_mem _ hx)
    simp [wireIdsFrom, ho, ih (n + 1) htl, List.range'_succ]

/-! Small projection lemmas about `send`. -/

theorem send_cmd (c : YeelightController) (m p : String) (o : NetOutcome) :
    (YeelightController.send c m p o).cmd = ⟨c.cmd_id, m, p⟩ := by
  cases o <;> rfl

theorem send_client (c : YeelightController) (m p : String) (o : NetOutcome) :
    (YeelightController.send c m p o).client = ⟨c.ip, c.port, c.cmd_id + 1⟩ := by
  cases o <;> rfl

/-! Claim theorems. -/

/-- C1 (amended): for every sequence of `send` calls issued under the
serialization lock from the fresh client `light`, the ids of the envelopes
that reach the wire are strictly increasing with no duplicate (so no
out-of-order and no reused id is ever observed), the sent envelopes are
pairwise distinct, and in the failure-free case — every call's connect and
write succeed — exactly `N` envelopes are sent for `N` calls and their ids
are exactly the contiguous sequence `1, …, N`. -/
theorem send_trace_wire_id_spec (calls : List (String × String × NetOutcome)) :
    List.Pairwise (· < ·) (((runSends light calls).2).map Envelope.wid)
    ∧ ((runSends light calls).2).Nodup
    ∧ ((∀ x ∈ calls, wireOn x.2.2 = true) →
        ((runSends light calls).2).map Envelope.wid =
          List.range' 1 calls.length
        ∧ ((runSends light calls).2).length = calls.length) := by
  have hw := runSends_map_wid calls light
  have hs : List.Pairwise (· < ·)
      (((runSends light calls).2).map Envelope.wid) := by
    rw [hw]; exact wireIdsFrom_sorted calls light.cmd_id
  refine ⟨hs, ?_, ?_⟩
  · exact List.Nodup.of_map Envelope.wid (hs.imp fun h => Nat.ne_of_lt h)
  · intro hall
    have hr : ((runSends light calls).2).map Envelope.wid =
        List.range' 1 calls.length := by
      rw [hw, wireIdsFrom_all_ok calls light.cmd_id hall]
      rfl
    refine ⟨hr, ?_⟩
    have := congrArg List.length hr
    simpa using this

/-- C1 (witness): a concrete failure-free two-call trace sends exactly two
envelopes with ids `[1, 2]`. -/
theorem send_trace_wire_id_spec_witness :
    ((runSends light
        [( "toggle", "[]", NetOutcome.ok),
         ( "set_music", "[0]", NetOutcome.ok)]).2).map Envelope.wid =
      List.range' 1 2
    ∧ ((runSends light
        [( "toggle", "[]", NetOutcome.ok),
         ( "set_music", "[0]", NetOutcome.ok)]).2).length = 2 :=
  (send_trace_wire_id_spec
    [( "toggle", "[]", NetOutcome.ok), ( "set_music", "[0]", NetOutcome.ok)]).2.2
    (by decide)

/-- C1 (counterexample to the claim as stated): one `send` call whose
connect fails puts no envelope on the wire, so a sequence of `N = 1` calls
does not send exactly `N` envelopes and the wire ids are not `1, …, N`. -/
theorem send_trace_lost_envelope :
    ((runSends light [( "toggle", "[]", NetOutcome.failConnect)]).2) = []
    ∧ [( "toggle", "[]", NetOutcome.failConnect)].length = 1 := by
  decide

/-- C2: `stop()` — from any prior supervisor state and under any behavior of
`terminate`/`wait`/`kill` (graceful, forced, or raising) — leaves the state
Idle (`process = None`, `running = False`), performs exactly one
`DeviceClient` call, and that call is the final `set_music([0])` disable,
issued after all termination handling. -/
theorem stop_always_sends_one_disable (s : MusicSyncManager)
    (b : StopBehavior) :
    (MusicSyncManager.stop s b).1 = ⟨Option.none, false⟩
    ∧ ((MusicSyncManager.stop s b).2).countP Effect.isDeviceCall = 1
    ∧ ((MusicSyncManager.stop s b).2).getLast? =
        some (Effect.deviceCall "set_music" "[0]") := by
  obtain ⟨proc, run⟩ := s
  obtain ⟨bt, bw, bk⟩ := b
  rcases proc with _ | p <;> cases bt <;> cases bw <;> cases bk <;>
    simp [MusicSyncManager.stop, MusicSyncManager.termFx, Effect.isDeviceCall]

/-- C3 (counterexample to the claim as stated): building the declared menu
(which includes the `Start Music Sync` leaf) yields 14 leaf ids and 14
registry entries, not 13. -/
theorem menu_has_fourteen_leaves :
    SysTrayIcon.menu_actions_by_id.length = 14
    ∧ ¬ SysTrayIcon.menu_actions_by_id.length = 13
    ∧ (leafIdsL SysTrayIcon.built_menu).length = 14 := by
  decide

/-- C3 (amended): building the declared menu — ids assigned depth-first from
the base offset 1023, Quit appended last — yields exactly 14 leaf ids, the
contiguous block `1023, …, 1036`, all unique and all at least `FIRST_ID`;
the registry holds exactly one handler per leaf id (the explicit 14-entry
mapping) and no entries for submenu or separator nodes (its ids coincide
with the tree's `act`-leaf ids). -/
theorem menu_id_assignment_spec :
    SysTrayIcon.menu_actions_by_id =
      [(1023, RegAction.handler Handler.on_toggle),
       (1024, RegAction.handler Handler.on_on),
       (1025, RegAction.handler Handler.on_off),
       (1026, RegAction.handler Handler.bright_100),
       (1027, RegAction.handler Handler.bright_75),
       (1028, RegAction.handler Handler.bright_50),
       (1029, RegAction.handler Handler.bright_25),
       (1030, RegAction.handler Handler.bright_10),
       (1031, RegAction.handler Handler.temp_warm),
       (1032, RegAction.handler Handler.temp_neutral),
       (1033, RegAction.handler Handler.temp_cool),
       (1034, RegAction.handler Handler.temp_day),
       (1035, RegAction.handler Handler.on_music_sync),
       (1036, RegAction.quitAct)]
    ∧ leafIdsL SysTrayIcon.built_menu = List.range' 1023 14
    ∧ SysTrayIcon.menu_actions_by_id.map Prod.fst =
        leafIdsL SysTrayIcon.built_menu
    ∧ (SysTrayIcon.menu_actions_by_id.map Prod.fst).Nodup
    ∧ SysTrayIcon.menu_actions_by_id.all
        (fun pr => SysTrayIcon.FIRST_ID ≤ pr.1) = true := by
  refine ⟨by decide, by decide, by decide, by decide, by decide⟩

/-- C4 (counterexample to the claim as stated): on a supervisor state whose
process has exited on its own, `is_running()` reports `false` but the
resulting state is not Idle — the dead process handle is retained
(`process ≠ None`), only the `running` flag is cleared. -/
theorem is_running_keeps_stale_handle :
    (MusicSyncManager.is_running ⟨some ⟨false⟩, true⟩).1 = false
    ∧ (MusicSyncManager.is_running ⟨some ⟨false⟩, true⟩).2 ≠
        (⟨Option.none, false⟩ : MusicSyncManager)
    ∧ (MusicSyncManager.is_running ⟨some ⟨false⟩, true⟩).2.process =
        some ⟨false⟩ := by
  decide

/-- C4 (amended): `is_running()` reports `true` exactly when a live process
handle is present; when the handle is absent or has exited it reports
`false` and self-heals only the `running` flag, retaining the (possibly
stale) process handle; when the handle is live the state is untouched. -/
theorem is_running_reports_liveness_and_heals_flag (s : MusicSyncManager) :
    (MusicSyncManager.is_running s).1 = MusicSyncManager.hasLive s
    ∧ (MusicSyncManager.hasLive s = false →
        (MusicSyncManager.is_running s).2 = ⟨s.process, false⟩)
    ∧ (MusicSyncManager.hasLive s = true →
        (MusicSyncManager.is_running s).2 = s) := by
  cases h : MusicSyncManager.hasLive s <;>
    simp [MusicSyncManager.is_running, h]

/-- C4 (witness): the amended theorem evaluated on a dead-process state. -/
theorem is_running_reports_liveness_and_heals_flag_witness :
    (MusicSyncManager.is_running ⟨some ⟨false⟩, true⟩).1 =
      MusicSyncManager.hasLive ⟨some ⟨false⟩, true⟩
    ∧ (MusicSyncManager.is_running ⟨some ⟨false⟩, true⟩).2 =
        ⟨(some ⟨false⟩ : Option Proc), false⟩ :=
  ⟨(is_running_reports_liveness_and_heals_flag ⟨some ⟨false⟩, true⟩).1,
   (is_running_reports_liveness_and_heals_flag ⟨some ⟨false⟩, true⟩).2.1
     (by decide)⟩

/-- C5: `color_temp(2700)` composes exactly the envelope
`{"id":<n>,"method":"set_ct_abx","params":[2700,"smooth",500]}` where `<n>`
is the current (next) command id, the bytes written are that envelope
terminated by the line break `"\r\n"`, and whatever reaches the wire is that
same envelope. -/
theorem color_temp_2700_envelope (c : YeelightController) (o : NetOutcome) :
    (YeelightController.color_temp c 2700 o).cmd =
      ⟨c.cmd_id, "set_ct_abx", "[2700,\"smooth\",500]"⟩
    ∧ renderWire (YeelightController.color_temp c 2700 o).cmd =
      "\x7b\"id\":" ++ toString c.cmd_id ++
        ",\"method\":\"set_ct_abx\",\"params\":[2700,\"smooth\",500]\x7d\r\n"
    ∧ ((YeelightController.color_temp c 2700 o).wire.all
        (fun e => e == (YeelightController.color_temp c 2700 o).cmd)) = true := by
  have h1 : (YeelightController.color_temp c 2700 o).cmd =
      ⟨c.cmd_id, "set_ct_abx", "[2700,\"smooth\",500]"⟩ := by
    rw [YeelightController.color_temp, send_cmd]
    simp only [Envelope.mk.injEq]
    refine ⟨trivial, trivial, by decide⟩
  refine ⟨h1, ?_, ?_⟩
  · rw [h1]
    simp only [renderWire, renderEnvelope, String.append_assoc]
    congr 2
  · cases o <;>
      simp [YeelightController.color_temp, YeelightController.send]

/-- C6: when the supervisor is already Running with a live process handle,
`start()` is a no-op — same state, no launch, no dialog; consequently in the
concrete scenario "successful `start()` from Idle, then `start()` again with
any environment", the combined effect trace contains exactly one process
launch. -/
theorem start_noop_when_running_live (s : MusicSyncManager) (p : Proc)
    (b b2 : StartBehavior) (hr : s.running = true) (hp : s.process = some p)
    (ha : p.alive = true) :
    MusicSyncManager.start s b = (s, [])
    ∧ MusicSyncManager.start
        (MusicSyncManager.start ⟨Option.none, false⟩ ⟨true, true⟩).1 b2 =
        ((MusicSyncManager.start ⟨Option.none, false⟩ ⟨true, true⟩).1, [])
    ∧ ((MusicSyncManager.start ⟨Option.none, false⟩ ⟨true, true⟩).2 ++
        (MusicSyncManager.start
          (MusicSyncManager.start ⟨Option.none, false⟩ ⟨true, true⟩).1
          b2).2).count Effect.procLaunch = 1 := by
  refine ⟨?_, ?_, ?_⟩
  · simp [MusicSyncManager.start, MusicSyncManager.hasLive, hr, hp, ha]
  · obtain ⟨se, so⟩ := b2
    cases se <;> cases so <;> decide
  · obtain ⟨se, so⟩ := b2
    cases se <;> cases so <;> decide

/-- C6 (witness): the no-op on a concrete running-live state, and the
double-`start` scenario launching exactly once. -/
theorem start_noop_when_running_live_witness :
    MusicSyncManager.start ⟨some ⟨true⟩, true⟩ ⟨true, true⟩ =
      ((⟨some ⟨true⟩, true⟩ : MusicSyncManager), [])
    ∧ MusicSyncManager.start
        (MusicSyncManager.start ⟨Option.none, false⟩ ⟨true, true⟩).1
        ⟨true, true⟩ =
        ((MusicSyncManager.start ⟨Option.none, false⟩ ⟨true, true⟩).1, [])
    ∧ ((MusicSyncManager.start ⟨Option.none, false⟩ ⟨true, true⟩).2 ++
        (MusicSyncManager.start
          (MusicSyncManager.start ⟨Option.none, false⟩ ⟨true, true⟩).1
          ⟨true, true⟩).2).count Effect.procLaunch = 1 :=
  start_noop_when_running_live ⟨some ⟨true⟩, true⟩ ⟨true⟩ ⟨true, true⟩
    ⟨true, true⟩ rfl rfl rfl

/-- C7: rendering the menu snapshot is a pure projection of the static tree:
while the supervisor has a live helper (Running) the designated leaf renders
as `Stop Music Sync`, otherwise as `Start Music Sync` (the Idle render is
literally the static tree); in both renders the leaf keeps the static id
1035, the registry still maps that id to the `on_music_sync` handler, and
every other node is unchanged from the static tree. -/
theorem dynamic_menu_render_spec (s : MusicSyncManager) :
    (SysTrayIcon.get_dynamic_menu s).1 =
      (if MusicSyncManager.hasLive s then
        (ROpts.cons (ROpt.act "Toggle" Option.none 1023) <|
         ROpts.cons (ROpt.sepR "" Option.none) <|
         ROpts.cons (ROpt.act "Turn ON" Option.none 1024) <|
         ROpts.cons (ROpt.act "Turn OFF" Option.none 1025) <|
         ROpts.cons (ROpt.sepR "" Option.none) <|
         ROpts.cons (ROpt.sub "Brightness" Option.none <|
           ROpts.cons (ROpt.act "100%" Option.none 1026) <|
           ROpts.cons (ROpt.act "75%" Option.none 1027) <|
           ROpts.cons (ROpt.act "50%" Option.none 1028) <|
           ROpts.cons (ROpt.act "25%" Option.none 1029) <|
           ROpts.cons (ROpt.act "10%" Option.none 1030) ROpts.nil) <|
         ROpts.cons (ROpt.sub "Color Temp" Option.none <|
           ROpts.cons (ROpt.act "Warm (2700K)" Option.none 1031) <|
           ROpts.cons (ROpt.act "Neutral (4000K)" Option.none 1032) <|
           ROpts.cons (ROpt.act "Cool (5500K)" Option.none 1033) <|
           ROpts.cons (ROpt.act "Daylight (6500K)" Option.none 1034)
             ROpts.nil) <|
         ROpts.cons (ROpt.sepR "" Option.none) <|
         ROpts.cons (ROpt.act "Stop Music Sync" Option.none 1035) <|
         ROpts.cons (ROpt.act "Quit" Option.none 1036) ROpts.nil)
       else SysTrayIcon.built_menu)
    ∧ (SysTrayIcon.get_dynamic_menu s).2 = (MusicSyncManager.is_running s).2
    ∧ SysTrayIcon.built_menu =
      (ROpts.cons (ROpt.act "Toggle" Option.none 1023) <|
       ROpts.cons (ROpt.sepR "" Option.none) <|
       ROpts.cons (ROpt.act "Turn ON" Option.none 1024) <|
       ROpts.cons (ROpt.act "Turn OFF" Option.none 1025) <|
       ROpts.cons (ROpt.sepR "" Option.none) <|
       ROpts.cons (ROpt.sub "Brightness" Option.none <|
         ROpts.cons (ROpt.act "100%" Option.none 1026) <|
         ROpts.cons (ROpt.act "75%" Option.none 1027) <|
         ROpts.cons (ROpt.act "50%" Option.none 1028) <|
         ROpts.cons (ROpt.act "25%" Option.none 1029) <|
         ROpts.cons (ROpt.act "10%" Option.none 1030) ROpts.nil) <|
       ROpts.cons (ROpt.sub "Color Temp" Option.none <|
         ROpts.cons (ROpt.act "Warm (2700K)" Option.none 1031) <|
         ROpts.cons (ROpt.act "Neutral (4000K)" Option.none 1032) <|
         ROpts.cons (ROpt.act "Cool (5500K)" Option.none 1033) <|
         ROpts.cons (ROpt.act "Daylight (6500K)" Option.none 1034)
           ROpts.nil) <|
       ROpts.cons (ROpt.sepR "" Option.none) <|
       ROpts.cons (ROpt.act "Start Music Sync" Option.none 1035) <|
       ROpts.cons (ROpt.act "Quit" Option.none 1036) ROpts.nil)
    ∧ SysTrayIcon.music_sync_entry =
        some (1035, RegAction.handler Handler.on_music_sync) := by
  refine ⟨?_, rfl, by rfl, by decide⟩
  cases h : MusicSyncManager.hasLive s <;>
    simp only [SysTrayIcon.get_dynamic_menu, MusicSyncManager.is_running, h,
      if_true, if_false, Bool.false_eq_true] <;> rfl

/-- C8: dispatching the Quit leaf's id (1036, the registry's QUIT entry)
performs the ordered shutdown: the effects are exactly the `stop()` effects
(process-termination signals followed by the single `set_music([0])` disable
call), then the tray-icon removal, then the event-loop termination, in that
order with no step skipped, and the supervisor ends Idle. -/
theorem quit_dispatch_ordered_shutdown (s : MusicSyncManager)
    (b : StopBehavior) :
    SysTrayIcon.menu_actions_by_id.find? (fun pr => pr.1 == 1036) =
      some (1036, RegAction.quitAct)
    ∧ SysTrayIcon.command 1036 s b =
        ((⟨Option.none, false⟩ : MusicSyncManager),
          MusicSyncManager.termFx s b ++
            [Effect.deviceCall "set_music" "[0]", Effect.removeIcon,
             Effect.postQuit])
    ∧ (MusicSyncManager.termFx s b).all
        (fun e => e == Effect.procTerminate || e == Effect.procKill) = true := by
  have hfind : SysTrayIcon.menu_actions_by_id.find? (fun pr => pr.1 == 1036) =
      some (1036, RegAction.quitAct) := by decide
  refine ⟨hfind, ?_, ?_⟩
  · simp [SysTrayIcon.command, hfind, SysTrayIcon.destroy,
      MusicSyncManager.stop]
  · obtain ⟨proc, run⟩ := s
    obtain ⟨bt, bw, bk⟩ := b
    rcases proc with _ | p <;> cases bt <;> cases bw <;> cases bk <;>
      simp [MusicSyncManager.termFx]

/-- C9: dispatching a menu-selection id with no registry entry is silently
ignored — no handler thread, no dialog, no shutdown, no state change. -/
theorem unknown_menu_id_silently_ignored (aid : Nat) (s : MusicSyncManager)
    (b : StopBehavior)
    (h : SysTrayIcon.menu_actions_by_id.find? (fun pr => pr.1 == aid) =
      Option.none) :
    SysTrayIcon.command aid s b = (s, []) := by
  simp [SysTrayIcon.command, h]

/-- C9 (witness): the unmapped id 5 dispatched on a concrete state does
nothing. -/
theorem unknown_menu_id_silently_ignored_witness :
    SysTrayIcon.command 5 ⟨Option.none, false⟩ ⟨false, false, false⟩ =
      ((⟨Option.none, false⟩ : MusicSyncManager), []) :=
  unknown_menu_id_silently_ignored 5 ⟨Option.none, false⟩ ⟨false, false, false⟩
    (by decide)

/-- C10 (amended): every `send` call — also the ones that return `False`
because of a connect, write, or read failure — increments `cmd_id` by
exactly one and changes no other client state; the call returns `False`
exactly when some socket operation failed; and a call failing at or before
the write puts nothing on the wire (whereas a call that fails only while
reading the reply has already written its envelope). -/
theorem send_frame_and_wire (c : YeelightController) (m p : String)
    (o : NetOutcome) :
    (YeelightController.send c m p o).client = ⟨c.ip, c.port, c.cmd_id + 1⟩
    ∧ ((YeelightController.send c m p o).ok = false ↔ o ≠ NetOutcome.ok)
    ∧ ((o = NetOutcome.failConnect ∨ o = NetOutcome.failSend) →
        (YeelightController.send c m p o).wire = Option.none) := by
  refine ⟨send_client c m p o, ?_, ?_⟩ <;>
    cases o <;> simp [YeelightController.send]

/-- C10 (witness): the frame and wire facts evaluated on a concrete
connect-failing call from the fresh client. -/
theorem send_frame_and_wire_witness :
    (YeelightController.send light "toggle" "[]" NetOutcome.failConnect).client
      = ⟨light.ip, light.port, light.cmd_id + 1⟩
    ∧ ((YeelightController.send light "toggle" "[]"
          NetOutcome.failConnect).ok = false
        ↔ NetOutcome.failConnect ≠ NetOutcome.ok)
    ∧ (YeelightController.send light "toggle" "[]"
        NetOutcome.failConnect).wire = Option.none :=
  ⟨(send_frame_and_wire light "toggle" "[]" NetOutcome.failConnect).1,
   (send_frame_and_wire light "toggle" "[]" NetOutcome.failConnect).2.1,
   (send_frame_and_wire light "toggle" "[]" NetOutcome.failConnect).2.2
     (Or.inl rfl)⟩

/-- C10 (counterexample to the claim as stated): a call that fails while
reading the reply returns `False`, yet its envelope (with its consumed id)
did reach the wire — a failed call's id is not always absent from the
wire. -/
theorem send_failed_read_left_envelope_on_wire :
    (YeelightController.send light "toggle" "[]" NetOutcome.failRecv).ok = false
    ∧ (YeelightController.send light "toggle" "[]" NetOutcome.failRecv).wire =
        some ⟨1, "toggle", "[]"⟩ := by
  decide
